import Mathlib

/-!
Verification of the data-transformation core of the Air-Quality-India data app.

The Python source (data_processor.py, utils.py) is shallowly embedded:
a pandas DataFrame of measurements becomes a `List Row`, timestamps become
`Nat` seconds since an epoch (one day = 86400 seconds), numeric values become
`ℚ`, and a nullable cell becomes an `Option`.  Each Python function is
translated line by line into a Lean definition of the same name.
-/

/-- One day in seconds; `pd.Timedelta(days=1)` on second-resolution timestamps. -/
def secsPerDay : Nat := 86400

/-- A measurement record after loading: `date` is a timestamp in seconds,
`value`, `lat`, `lon` are numeric and present (null rows were dropped at load
time); `unit` stays nullable because `load_and_process_data` only drops rows
with null `value`/`lat`/`lon`. -/
structure Row where
  date : Nat
  location : String
  parameter : String
  value : ℚ
  lat : ℚ
  lon : ℚ
  unit : Option String
deriving DecidableEq

/-- A raw CSV record before null-dropping: `value`, `lat`, `lon` may be null. -/
structure RawRow where
  date : Nat
  location : String
  parameter : String
  value : Option ℚ
  lat : Option ℚ
  lon : Option ℚ
  unit : Option String
deriving DecidableEq

/-- `load_and_process_data`: parse dates (already canonical here) and
`dropna(subset=['value','lat','lon'])`. -/
def load_and_process_data (raw : List RawRow) : List Row :=
  raw.filterMap fun r =>
    match r.value, r.lat, r.lon with
    | some v, some la, some lo =>
        some ⟨r.date, r.location, r.parameter, v, la, lo, r.unit⟩
    | _, _, _ => none

/-- `filter_data_by_date_range`: both bounds arrive as plain dates (day
numbers, coerced by `pd.to_datetime` to midnight timestamps); the code then
adds one day to the end bound and keeps rows with
`start <= date < end + 1 day`. -/
def filter_data_by_date_range (df : List Row) (startDay endDay : Nat) : List Row :=
  let startTs := startDay * secsPerDay
  let endTs := endDay * secsPerDay + secsPerDay
  df.filter fun r => decide (startTs ≤ r.date ∧ r.date < endTs)

/-- `filter_data_by_location`: an empty selection means no filtering;
otherwise keep rows whose location is in the selection. -/
def filter_data_by_location (df : List Row) (locations : List String) : List Row :=
  if locations = [] then df
  else df.filter fun r => decide (r.location ∈ locations)

/-- `filter_data_by_parameter`: keep rows whose parameter is in the selection
(a single string is wrapped into a one-element list by the Python code; the
embedding takes the list form). -/
def filter_data_by_parameter (df : List Row) (parameters : List String) : List Row :=
  df.filter fun r => decide (r.parameter ∈ parameters)

/-- C3: `filter_data_by_date_range` keeps exactly the rows whose timestamp t
satisfies start 00:00 ≤ t < (end + 1 day) 00:00; a record stamped end 23:59:59
is kept and one stamped end+1 00:00:00 is excluded. -/
theorem filter_date_range_window (df : List Row) (s e : Nat) :
    (∀ r : Row, r ∈ filter_data_by_date_range df s e ↔
      r ∈ df ∧ s * secsPerDay ≤ r.date ∧ r.date < e * secsPerDay + secsPerDay) ∧
    (∀ r : Row, r ∈ df → r.date = e * secsPerDay + 86399 → s ≤ e →
      r ∈ filter_data_by_date_range df s e) ∧
    (∀ r : Row, r.date = (e + 1) * secsPerDay →
      r ∉ filter_data_by_date_range df s e) := by
  refine ⟨fun r => ?_, fun r hmem hdate hse => ?_, fun r hdate hmem => ?_⟩
  · simp [filter_data_by_date_range, List.mem_filter]
  · simp only [filter_data_by_date_range, List.mem_filter, decide_eq_true_eq]
    refine ⟨hmem, ?_, ?_⟩
    · rw [hdate]
      calc s * secsPerDay ≤ e * secsPerDay := Nat.mul_le_mul_right _ hse
        _ ≤ e * secsPerDay + 86399 := Nat.le_add_right _ _
    · rw [hdate]
      have : (86399 : Nat) < secsPerDay := by norm_num [secsPerDay]
      omega
  · simp only [filter_data_by_date_range, List.mem_filter, decide_eq_true_eq] at hmem
    have h := hmem.2.2
    rw [hdate] at h
    have : (e + 1) * secsPerDay = e * secsPerDay + secsPerDay := by ring
    omega

/-- Witness for C3 at a concrete table: day window [0,0] keeps the row stamped
86399 (= day 0, 23:59:59) and drops the row stamped 86400 (= day 1, 00:00). -/
theorem filter_date_range_window_witness :
    (⟨86399, "Delhi", "pm25", 1, 0, 0, none⟩ : Row) ∈
      filter_data_by_date_range
        [⟨86399, "Delhi", "pm25", 1, 0, 0, none⟩, ⟨86400, "Delhi", "pm25", 2, 0, 0, none⟩] 0 0 ∧
    (⟨86400, "Delhi", "pm25", 2, 0, 0, none⟩ : Row) ∉
      filter_data_by_date_range
        [⟨86399, "Delhi", "pm25", 1, 0, 0, none⟩, ⟨86400, "Delhi", "pm25", 2, 0, 0, none⟩] 0 0 := by
  constructor
  · exact (filter_date_range_window
      [⟨86399, "Delhi", "pm25", 1, 0, 0, none⟩, ⟨86400, "Delhi", "pm25", 2, 0, 0, none⟩] 0 0).2.1
      ⟨86399, "Delhi", "pm25", 1, 0, 0, none⟩ (by simp) (by norm_num [secsPerDay]) (Nat.le_refl 0)
  · exact (filter_date_range_window
      [⟨86399, "Delhi", "pm25", 1, 0, 0, none⟩, ⟨86400, "Delhi", "pm25", 2, 0, 0, none⟩] 0 0).2.2
      ⟨86400, "Delhi", "pm25", 2, 0, 0, none⟩ (by norm_num [secsPerDay])

/-- C8: an empty location selection is a no-op (same rows, same order, same
count), and a non-empty selection keeps exactly the rows whose location is a
member. -/
theorem filter_location_empty_noop (df : List Row) (locations : List String) :
    (locations = [] → filter_data_by_location df locations = df) ∧
    (locations ≠ [] → ∀ r : Row,
      r ∈ filter_data_by_location df locations ↔ r ∈ df ∧ r.location ∈ locations) := by
  constructor
  · intro h
    simp [filter_data_by_location, h]
  · intro h r
    simp [filter_data_by_location, h, List.mem_filter]

/-- Witness for C8: a two-row table is returned unchanged by an empty
selection, and a singleton selection keeps exactly the matching row. -/
theorem filter_location_empty_noop_witness :
    filter_data_by_location
      [⟨0, "Delhi", "pm25", 1, 0, 0, none⟩, ⟨0, "Mumbai", "pm25", 2, 0, 0, none⟩] [] =
      [⟨0, "Delhi", "pm25", 1, 0, 0, none⟩, ⟨0, "Mumbai", "pm25", 2, 0, 0, none⟩] ∧
    ((⟨0, "Delhi", "pm25", 1, 0, 0, none⟩ : Row) ∈
      filter_data_by_location
        [⟨0, "Delhi", "pm25", 1, 0, 0, none⟩, ⟨0, "Mumbai", "pm25", 2, 0, 0, none⟩] ["Delhi"]) := by
  constructor
  · exact (filter_location_empty_noop
      [⟨0, "Delhi", "pm25", 1, 0, 0, none⟩, ⟨0, "Mumbai", "pm25", 2, 0, 0, none⟩] []).1 rfl
  · exact ((filter_location_empty_noop
      [⟨0, "Delhi", "pm25", 1, 0, 0, none⟩, ⟨0, "Mumbai", "pm25", 2, 0, 0, none⟩] ["Delhi"]).2
      (by simp) ⟨0, "Delhi", "pm25", 1, 0, 0, none⟩).mpr (by simp)

/-- C10: unlike `filter_data_by_location`, an empty parameter selection drops
every row (no special-casing of the empty list), so on a non-empty table the
result differs from the input. -/
theorem filter_parameter_empty_drops_all (df : List Row) :
    filter_data_by_parameter df [] = [] ∧
    (df ≠ [] → filter_data_by_parameter df [] ≠ df) := by
  have h : filter_data_by_parameter df [] = [] := by
    simp [filter_data_by_parameter]
  exact ⟨h, fun hne => by rw [h]; exact fun heq => hne heq.symm⟩

/-- Witness for C10: on a one-row table the empty parameter selection returns
the empty table, not the input. -/
theorem filter_parameter_empty_drops_all_witness :
    filter_data_by_parameter [(⟨0, "Delhi", "pm25", 1, 0, 0, none⟩ : Row)] [] = [] ∧
    filter_data_by_parameter [(⟨0, "Delhi", "pm25", 1, 0, 0, none⟩ : Row)] [] ≠
      [(⟨0, "Delhi", "pm25", 1, 0, 0, none⟩ : Row)] := by
  exact ⟨(filter_parameter_empty_drops_all _).1,
    (filter_parameter_empty_drops_all [(⟨0, "Delhi", "pm25", 1, 0, 0, none⟩ : Row)]).2 (by simp)⟩

/-- Two list filters applied in sequence commute. -/
theorem filter_swap (p q : Row → Bool) (l : List Row) :
    (l.filter p).filter q = (l.filter q).filter p := by
  simp only [List.filter_filter]
  exact List.filter_congr fun a _ => by rw [Bool.and_comm]

/-- Date-range and location filters commute. -/
theorem loc_date_comm (df : List Row) (s e : Nat) (locs : List String) :
    filter_data_by_location (filter_data_by_date_range df s e) locs =
      filter_data_by_date_range (filter_data_by_location df locs) s e := by
  by_cases h : locs = []
  · simp [filter_data_by_location, h]
  · simp only [filter_data_by_location, h, if_false]
    exact filter_swap _ _ df

/-- Date-range and parameter filters commute. -/
theorem param_date_comm (df : List Row) (s e : Nat) (params : List String) :
    filter_data_by_parameter (filter_data_by_date_range df s e) params =
      filter_data_by_date_range (filter_data_by_parameter df params) s e :=
  filter_swap _ _ df

/-- Location and parameter filters commute. -/
theorem param_loc_comm (df : List Row) (locs params : List String) :
    filter_data_by_parameter (filter_data_by_location df locs) params =
      filter_data_by_location (filter_data_by_parameter df params) locs := by
  by_cases h : locs = []
  · simp [filter_data_by_location, h]
  · simp only [filter_data_by_location, h, if_false]
    exact filter_swap _ _ df

/-- C6: the three filters are pure functions on the table (the input list is
never mutated — every result is a fresh derived list) and, for a fixed date
range, location set and parameter set, all six application orders agree. -/
theorem filters_commute (df : List Row) (s e : Nat) (locs params : List String) :
    (filter_data_by_parameter (filter_data_by_location
        (filter_data_by_date_range df s e) locs) params =
      filter_data_by_parameter (filter_data_by_date_range
        (filter_data_by_location df locs) s e) params) ∧
    (filter_data_by_parameter (filter_data_by_location
        (filter_data_by_date_range df s e) locs) params =
      filter_data_by_location (filter_data_by_parameter
        (filter_data_by_date_range df s e) params) locs) ∧
    (filter_data_by_parameter (filter_data_by_location
        (filter_data_by_date_range df s e) locs) params =
      filter_data_by_location (filter_data_by_date_range
        (filter_data_by_parameter df params) s e) locs) ∧
    (filter_data_by_parameter (filter_data_by_location
        (filter_data_by_date_range df s e) locs) params =
      filter_data_by_date_range (filter_data_by_parameter
        (filter_data_by_location df locs) params) s e) ∧
    (filter_data_by_parameter (filter_data_by_location
        (filter_data_by_date_range df s e) locs) params =
      filter_data_by_date_range (filter_data_by_location
        (filter_data_by_parameter df params) locs) s e) := by
  refine ⟨by rw [loc_date_comm], by rw [param_loc_comm], ?_, ?_, ?_⟩
  · rw [param_loc_comm, param_date_comm]
  · rw [loc_date_comm, param_date_comm]
  · rw [param_loc_comm, param_date_comm, loc_date_comm]

/-- Order-of-appearance deduplication, as pandas `Series.unique` does;
models `get_unique_values`. -/
def uniq {α : Type} [DecidableEq α] (l : List α) : List α :=
  l.foldl (fun acc x => if x ∈ acc then acc else acc ++ [x]) []

/-- Folding `uniq`'s step keeps exactly the accumulator's and the list's
elements. -/
theorem mem_uniq_aux {α : Type} [DecidableEq α] (l acc : List α) (x : α) :
    x ∈ l.foldl (fun acc x => if x ∈ acc then acc else acc ++ [x]) acc ↔
      x ∈ acc ∨ x ∈ l := by
  induction l generalizing acc with
  | nil => simp
  | cons y ys ih =>
    simp only [List.foldl_cons, ih, List.mem_cons]
    by_cases hy : y ∈ acc
    · simp only [if_pos hy]
      constructor
      · exact fun h => h.elim (fun h1 => Or.inl h1) (fun h2 => Or.inr (Or.inr h2))
      · rintro (h1 | h2 | h3)
        · exact Or.inl h1
        · exact Or.inl (h2 ▸ hy)
        · exact Or.inr h3
    · simp only [if_neg hy, List.mem_append, List.mem_singleton]
      tauto

/-- Membership in `uniq l` is membership in `l`. -/
theorem mem_uniq {α : Type} [DecidableEq α] (l : List α) (x : α) :
    x ∈ uniq l ↔ x ∈ l := by
  simpa using mem_uniq_aux l [] x

/-- Minimum of a list of naturals, 0 on the empty list; models
`df['date'].min()`. -/
def natMinL : List Nat → Nat
  | [] => 0
  | x :: xs => xs.foldl Nat.min x

/-- Maximum of a list of naturals, 0 on the empty list; models
`df['date'].max()`. -/
def natMaxL : List Nat → Nat
  | [] => 0
  | x :: xs => xs.foldl Nat.max x

theorem foldl_min_le_init (xs : List Nat) (a : Nat) : xs.foldl Nat.min a ≤ a := by
  induction xs generalizing a with
  | nil => exact Nat.le_refl a
  | cons y ys ih =>
    exact Nat.le_trans (ih (Nat.min a y)) (Nat.min_le_left a y)

theorem natMinL_le (l : List Nat) (x : Nat) (hx : x ∈ l) : natMinL l ≤ x := by
  match l, hx with
  | y :: ys, hx =>
    rw [List.mem_cons] at hx
    rcases hx with rfl | hx
    · exact foldl_min_le_init ys x
    · induction ys generalizing y with
      | nil => cases hx
      | cons z zs ih =>
        rw [List.mem_cons] at hx
        rcases hx with rfl | hx
        · exact Nat.le_trans (foldl_min_le_init zs (Nat.min y x)) (Nat.min_le_right y x)
        · exact ih (Nat.min y z) hx

theorem init_le_foldl_max (xs : List Nat) (a : Nat) : a ≤ xs.foldl Nat.max a := by
  induction xs generalizing a with
  | nil => exact Nat.le_refl a
  | cons y ys ih =>
    exact Nat.le_trans (Nat.le_max_left a y) (ih (Nat.max a y))

theorem le_natMaxL (l : List Nat) (x : Nat) (hx : x ∈ l) : x ≤ natMaxL l := by
  match l, hx with
  | y :: ys, hx =>
    rw [List.mem_cons] at hx
    rcases hx with rfl | hx
    · exact init_le_foldl_max ys x
    · induction ys generalizing y with
      | nil => cases hx
      | cons z zs ih =>
        rw [List.mem_cons] at hx
        rcases hx with rfl | hx
        · exact Nat.le_trans (Nat.le_max_right y x) (init_le_foldl_max zs (Nat.max y x))
        · exact ih (Nat.max y z) hx

/-- The calendar day (day number since the epoch) of the earliest timestamp in
the table, as the UI derives the default start of the date picker. -/
def minDay (df : List Row) : Nat := natMinL (df.map (·.date)) / secsPerDay

/-- The calendar day of the latest timestamp in the table. -/
def maxDay (df : List Row) : Nat := natMaxL (df.map (·.date)) / secsPerDay

/-- C5: filtering a loaded table by its own full date range, then by all of
its locations, then by all of its parameters, returns the loaded
(null-dropped) table unchanged — same rows, same order, same count. -/
theorem load_filter_roundtrip (raw : List RawRow) :
    filter_data_by_parameter
      (filter_data_by_location
        (filter_data_by_date_range (load_and_process_data raw)
          (minDay (load_and_process_data raw)) (maxDay (load_and_process_data raw)))
        (uniq ((load_and_process_data raw).map (·.location))))
      (uniq ((load_and_process_data raw).map (·.parameter))) =
    load_and_process_data raw := by
  set df := load_and_process_data raw with hdf
  have hdate : filter_data_by_date_range df (minDay df) (maxDay df) = df := by
    rw [filter_data_by_date_range, List.filter_eq_self]
    intro r hr
    rw [decide_eq_true_eq]
    constructor
    · calc minDay df * secsPerDay ≤ natMinL (df.map (·.date)) :=
            Nat.div_mul_le_self _ _
        _ ≤ r.date := natMinL_le _ _ (List.mem_map_of_mem _ hr)
    · have hle : r.date ≤ natMaxL (df.map (·.date)) :=
        le_natMaxL _ _ (List.mem_map_of_mem _ hr)
      have hmod := Nat.div_add_mod (natMaxL (df.map (·.date))) secsPerDay
      have hlt : natMaxL (df.map (·.date)) % secsPerDay < secsPerDay :=
        Nat.mod_lt _ (by norm_num [secsPerDay])
      unfold maxDay
      have hcomm : natMaxL (df.map (·.date)) / secsPerDay * secsPerDay =
          secsPerDay * (natMaxL (df.map (·.date)) / secsPerDay) := Nat.mul_comm _ _
      omega
  rw [hdate]
  have hloc : filter_data_by_location df (uniq (df.map (·.location))) = df := by
    by_cases h : uniq (df.map (·.location)) = []
    · simp [filter_data_by_location, h]
    · rw [filter_data_by_location, if_neg h, List.filter_eq_self]
      intro r hr
      rw [decide_eq_true_eq, mem_uniq]
      exact List.mem_map_of_mem _ hr
  rw [hloc]
  rw [filter_data_by_parameter, List.filter_eq_self]
  intro r hr
  rw [decide_eq_true_eq, mem_uniq]
  exact List.mem_map_of_mem _ hr

/-- Parameter metadata: `unit` is `Option String` so that a pandas NaN read
back from a `unit` column can be stored in the field (`none`); the Python
empty string is `some ""`. Thresholds keep the dict's insertion order. -/
structure ParamInfo where
  title : String
  unit : Option String
  description : String
  threshold : List (String × ℚ)
deriving DecidableEq

/-- Python `dict.get(key, 0)` on a threshold dict. -/
def thrGet (t : List (String × ℚ)) (k : String) : ℚ := (t.lookup k).getD 0

/-- Python `str.replace(a, b)` for single characters. -/
def pyReplace (s : String) (a b : Char) : String :=
  ⟨s.data.map fun c => if c = a then b else c⟩

/-- Helper for `pyTitle`: the boolean tracks whether the previous character
was alphabetic. -/
def pyTitleAux : List Char → Bool → List Char
  | [], _ => []
  | c :: cs, prevAlpha =>
    if c.isAlpha then
      (if prevAlpha then c.toLower else c.toUpper) :: pyTitleAux cs true
    else c :: pyTitleAux cs false

/-- Python `str.title()`: the first letter of every alphabetic run is
uppercased, the rest lowercased. -/
def pyTitle (s : String) : String := ⟨pyTitleAux s.data false⟩

/-- The static `parameter_info` dictionary of `get_parameter_info`. -/
def parameter_info : List (String × ParamInfo) :=
  [("pm25", ⟨"PM2.5", some "µg/m³",
      "Fine particulate matter with diameter less than 2.5 micrometers",
      [("good", 12), ("moderate", 35.4), ("unhealthy", 55.4), ("very_unhealthy", 150.4)]⟩),
   ("pm1", ⟨"PM1", some "µg/m³",
      "Particulate matter with diameter less than 1 micrometer",
      [("good", 10), ("moderate", 25), ("unhealthy", 50), ("very_unhealthy", 100)]⟩),
   ("pm10", ⟨"PM10", some "µg/m³",
      "Particulate matter with diameter less than 10 micrometers",
      [("good", 54), ("moderate", 154), ("unhealthy", 254), ("very_unhealthy", 354)]⟩),
   ("co", ⟨"Carbon Monoxide", some "ppb", "Carbon monoxide concentration",
      [("good", 4.4), ("moderate", 9.4), ("unhealthy", 12.4), ("very_unhealthy", 15.4)]⟩),
   ("no", ⟨"Nitric Oxide", some "ppb", "Nitric oxide concentration",
      [("good", 40), ("moderate", 80), ("unhealthy", 180), ("very_unhealthy", 280)]⟩),
   ("no2", ⟨"Nitrogen Dioxide", some "ppb", "Nitrogen dioxide concentration",
      [("good", 53), ("moderate", 100), ("unhealthy", 360), ("very_unhealthy", 649)]⟩),
   ("o3", ⟨"Ozone", some "µg/m³", "Ozone concentration",
      [("good", 54), ("moderate", 70), ("unhealthy", 85), ("very_unhealthy", 105)]⟩),
   ("so2", ⟨"Sulfur Dioxide", some "ppb", "Sulfur dioxide concentration",
      [("good", 35), ("moderate", 75), ("unhealthy", 185), ("very_unhealthy", 304)]⟩),
   ("temperature", ⟨"Temperature", some "°C", "Ambient temperature",
      [("cold", 0), ("cool", 15), ("moderate", 25), ("hot", 30)]⟩),
   ("pressure", ⟨"Atmospheric Pressure", some "hPa", "Atmospheric pressure",
      [("low", 980), ("normal", 1013), ("high", 1030)]⟩),
   ("relativehumidity", ⟨"Relative Humidity", some "%", "Relative humidity",
      [("dry", 30), ("comfortable", 50), ("humid", 70)]⟩),
   ("wind_speed", ⟨"Wind Speed", some "m/s", "Wind speed",
      [("calm", 1), ("light", 3), ("moderate", 7), ("strong", 10)]⟩),
   ("wind_direction", ⟨"Wind Direction", some "deg", "Wind direction in degrees", []⟩),
   ("um003", ⟨"Ultrafine Particles", some "count/cm³", "Ultrafine particles concentration",
      [("low", 1000), ("moderate", 10000), ("high", 50000)]⟩)]

/-- A DataFrame as seen by `get_parameter_info`: the flag records whether the
table has a `unit` column (accessing a missing column raises in pandas; the
function swallows that with a bare except). -/
structure UDF where
  rows : List Row
  hasUnitCol : Bool
deriving DecidableEq

/-- `get_parameter_info`: static lookup, with a synthesized fallback for
unknown parameters; the fallback unit is the first distinct `unit` value
observed for the parameter when a table with a `unit` column is given, and
stays `""` when the lookup raises (no `unit` column) or no table is given. -/
def get_parameter_info (parameter : String) (df : Option UDF) : ParamInfo :=
  match parameter_info.lookup parameter with
  | some info => info
  | none =>
    let t := pyTitle (pyReplace parameter '_' ' ')
    let base : ParamInfo := ⟨t, some "", t ++ " measurement", []⟩
    match df with
    | none => base
    | some d =>
      if d.hasUnitCol then
        match uniq ((d.rows.filter fun r => decide (r.parameter = parameter)).map (·.unit)) with
        | [] => base
        | u :: _ => { base with unit := u }
      else base

/-- The `thresholds` local of `classify_aqi_level`:
`get_parameter_info(parameter)['threshold']`. -/
def classify_thresholds (parameter : String) : List (String × ℚ) :=
  (get_parameter_info parameter none).threshold

/-- `classify_aqi_level`: the nested if/elif ladder of utils.py, branching
first on membership in the six-pollutant list, then on temperature, then on
relative humidity, and otherwise returning the default. -/
def classify_aqi_level (value : ℚ) (parameter : String) : String × String :=
  if parameter ∈ (["pm25", "pm10", "co", "no2", "o3", "so2"] : List String) then
    if value ≤ thrGet (classify_thresholds parameter) "good" then ("Good", "#00E400")
    else if value ≤ thrGet (classify_thresholds parameter) "moderate" then ("Moderate", "#FFFF00")
    else if value ≤ thrGet (classify_thresholds parameter) "unhealthy" then
      ("Unhealthy for Sensitive Groups", "#FF7E00")
    else if value ≤ thrGet (classify_thresholds parameter) "very_unhealthy" then
      ("Unhealthy", "#FF0000")
    else ("Hazardous", "#99004C")
  else if parameter = "temperature" then
    if value ≤ thrGet (classify_thresholds parameter) "cold" then ("Cold", "#0000FF")
    else if value ≤ thrGet (classify_thresholds parameter) "cool" then ("Cool", "#00FFFF")
    else if value ≤ thrGet (classify_thresholds parameter) "moderate" then ("Moderate", "#00FF00")
    else if value ≤ thrGet (classify_thresholds parameter) "hot" then ("Warm", "#FFFF00")
    else ("Hot", "#FF0000")
  else if parameter = "relativehumidity" then
    if value ≤ thrGet (classify_thresholds parameter) "dry" then ("Dry", "#FFA500")
    else if value ≤ thrGet (classify_thresholds parameter) "comfortable" then
      ("Comfortable", "#00FF00")
    else ("Humid", "#0000FF")
  else ("Normal", "#00FF00")

/-- First-match reading of the spec for `classify`: walk the (breakpoint,
level, color) ladder from lowest to highest and return the first level whose
breakpoint the value does not exceed, else the given last-resort level. -/
def firstMatch (value : ℚ) : List (ℚ × String × String) → String × String → String × String
  | [], dflt => dflt
  | (t, nm, col) :: rest, dflt =>
    if value ≤ t then (nm, col) else firstMatch value rest dflt

/-- C4: the boundary value 12 (equal to the pm25 "good" breakpoint) classifies
as Good — the comparison is inclusive — and 1000, above every pm25
breakpoint, classifies as Hazardous. -/
theorem classify_pm25_boundaries :
    classify_aqi_level 12 "pm25" = ("Good", "#00E400") ∧
    classify_aqi_level 1000 "pm25" = ("Hazardous", "#99004C") := by
  have hg : thrGet (classify_thresholds "pm25") "good" = 12 := rfl
  have hm : thrGet (classify_thresholds "pm25") "moderate" = 35.4 := rfl
  have hu : thrGet (classify_thresholds "pm25") "unhealthy" = 55.4 := rfl
  have hv : thrGet (classify_thresholds "pm25") "very_unhealthy" = 150.4 := rfl
  have hmem : "pm25" ∈ (["pm25", "pm10", "co", "no2", "o3", "so2"] : List String) := by decide
  constructor
  · unfold classify_aqi_level
    rw [if_pos hmem, hg]
    norm_num
  · unfold classify_aqi_level
    rw [if_pos hmem, hg, hm, hu, hv]
    norm_num

/-- Counterexample to C2: pm1 has defined, ordered breakpoints whose first
level ("good", 10) matches the value 5, yet `classify_aqi_level` returns the
default "Normal" because pm1 is missing from the hard-coded pollutant branch
list. -/
theorem classify_pm1_thresholds_ignored :
    classify_thresholds "pm1" =
      [("good", 10), ("moderate", 25), ("unhealthy", 50), ("very_unhealthy", 100)] ∧
    ((5 : ℚ) ≤ thrGet (classify_thresholds "pm1") "good") ∧
    classify_aqi_level 5 "pm1" = ("Normal", "#00FF00") := by
  refine ⟨rfl, ?_, rfl⟩
  have h : thrGet (classify_thresholds "pm1") "good" = 10 := rfl
  rw [h]
  norm_num

/-- C2 amended: the first-match walk over ordered breakpoints happens only for
the six hard-coded pollutants (falling through to Hazardous), for temperature
(falling through to Hot), and for relative humidity (falling through to
Humid); every other parameter — with or without defined thresholds, e.g.
pm1 — returns the default Normal. -/
theorem classify_branch_structure (value : ℚ) (p : String) :
    (p ∈ (["pm25", "pm10", "co", "no2", "o3", "so2"] : List String) →
      classify_aqi_level value p = firstMatch value
        [(thrGet (classify_thresholds p) "good", "Good", "#00E400"),
         (thrGet (classify_thresholds p) "moderate", "Moderate", "#FFFF00"),
         (thrGet (classify_thresholds p) "unhealthy",
           "Unhealthy for Sensitive Groups", "#FF7E00"),
         (thrGet (classify_thresholds p) "very_unhealthy", "Unhealthy", "#FF0000")]
        ("Hazardous", "#99004C")) ∧
    (classify_aqi_level value "temperature" = firstMatch value
        [(thrGet (classify_thresholds "temperature") "cold", "Cold", "#0000FF"),
         (thrGet (classify_thresholds "temperature") "cool", "Cool", "#00FFFF"),
         (thrGet (classify_thresholds "temperature") "moderate", "Moderate", "#00FF00"),
         (thrGet (classify_thresholds "temperature") "hot", "Warm", "#FFFF00")]
        ("Hot", "#FF0000")) ∧
    (classify_aqi_level value "relativehumidity" = firstMatch value
        [(thrGet (classify_thresholds "relativehumidity") "dry", "Dry", "#FFA500"),
         (thrGet (classify_thresholds "relativehumidity") "comfortable",
           "Comfortable", "#00FF00")]
        ("Humid", "#0000FF")) ∧
    (p ∉ (["pm25", "pm10", "co", "no2", "o3", "so2",
           "temperature", "relativehumidity"] : List String) →
      classify_aqi_level value p = ("Normal", "#00FF00")) := by
  refine ⟨fun h => ?_, ?_, ?_, fun h => ?_⟩
  · unfold classify_aqi_level
    rw [if_pos h]
    simp only [firstMatch]
  · unfold classify_aqi_level
    rw [if_neg (show "temperature" ∉
        (["pm25", "pm10", "co", "no2", "o3", "so2"] : List String) by decide),
      if_pos rfl]
    simp only [firstMatch]
  · unfold classify_aqi_level
    rw [if_neg (show "relativehumidity" ∉
        (["pm25", "pm10", "co", "no2", "o3", "so2"] : List String) by decide),
      if_neg (show ¬("relativehumidity" = "temperature") by decide),
      if_pos rfl]
    simp only [firstMatch]
  · simp only [List.mem_cons, List.not_mem_nil, or_false, not_or] at h
    obtain ⟨h1, h2, h3, h4, h5, h6, h7, h8⟩ := h
    unfold classify_aqi_level
    rw [if_neg (by
        simp only [List.mem_cons, List.not_mem_nil, or_false, not_or]
        exact ⟨h1, h2, h3, h4, h5, h6⟩),
      if_neg h7, if_neg h8]

/-- Witness for C2 (amended): at pm25 the membership hypothesis holds and the
classifier agrees with the first-match walk; at pm1 the exclusion hypothesis
holds and the classifier returns Normal. -/
theorem classify_branch_structure_witness :
    ("pm25" ∈ (["pm25", "pm10", "co", "no2", "o3", "so2"] : List String) ∧
      classify_aqi_level 12 "pm25" = firstMatch 12
        [(thrGet (classify_thresholds "pm25") "good", "Good", "#00E400"),
         (thrGet (classify_thresholds "pm25") "moderate", "Moderate", "#FFFF00"),
         (thrGet (classify_thresholds "pm25") "unhealthy",
           "Unhealthy for Sensitive Groups", "#FF7E00"),
         (thrGet (classify_thresholds "pm25") "very_unhealthy", "Unhealthy", "#FF0000")]
        ("Hazardous", "#99004C")) ∧
    ("pm1" ∉ (["pm25", "pm10", "co", "no2", "o3", "so2",
           "temperature", "relativehumidity"] : List String) ∧
      classify_aqi_level 5 "pm1" = ("Normal", "#00FF00")) :=
  ⟨⟨by decide, (classify_branch_structure 12 "pm25").1 (by decide)⟩,
   ⟨by decide, (classify_branch_structure 5 "pm1").2.2.2 (by decide)⟩⟩

/-- Counterexample to C9: for an unknown parameter whose first observed unit
cell is null, the fallback takes `unique()[0]` — the null itself — rather
than the first observed non-null unit ("ppb"). -/
theorem fallback_unit_takes_null :
    (get_parameter_info "smoke" (some ⟨[⟨0, "Delhi", "smoke", 1, 0, 0, none⟩,
        ⟨1, "Delhi", "smoke", 2, 0, 0, some "ppb"⟩], true⟩)).unit = none ∧
    (none : Option String) ≠ some "ppb" := by
  exact ⟨rfl, by simp⟩

/-- C9 amended: for a parameter absent from the static table the fallback
title is the humanized identifier (concretely, "unknown_param" gives
"Unknown Param"); the unit is the empty string when no table is supplied or
when reading the unit column raises (missing column — the bare except keeps
the function total); when a table with a unit column is supplied the unit is
the first distinct observed unit value for the parameter, which may itself be
null. -/
theorem get_parameter_info_fallback (p : String) (rows : List Row)
    (hp : parameter_info.lookup p = none) :
    ((get_parameter_info p none).title = pyTitle (pyReplace p '_' ' ')) ∧
    ((get_parameter_info p none).unit = some "") ∧
    ((get_parameter_info p (some ⟨rows, false⟩)).unit = some "") ∧
    (∀ (u : Option String) (us : List (Option String)),
      uniq ((rows.filter fun r => decide (r.parameter = p)).map (·.unit)) = u :: us →
      (get_parameter_info p (some ⟨rows, true⟩)).unit = u) ∧
    ((get_parameter_info "unknown_param" none).title = "Unknown Param" ∧
      (get_parameter_info "unknown_param" none).unit = some "") := by
  refine ⟨?_, ?_, ?_, fun u us h => ?_, rfl, rfl⟩
  · unfold get_parameter_info
    rw [hp]
  · unfold get_parameter_info
    rw [hp]
  · unfold get_parameter_info
    rw [hp]
    rfl
  · unfold get_parameter_info
    rw [hp]
    simp only [h]
    simp

/-- Witness for C9 (amended): concrete unknown parameter "smoke", one row
carrying unit "ppb"; the static lookup misses and the fallback unit is the
first observed distinct unit. -/
theorem get_parameter_info_fallback_witness :
    parameter_info.lookup "smoke" = none ∧
    uniq ((([(⟨0, "Delhi", "smoke", 1, 0, 0, some "ppb"⟩ : Row)].filter
        fun r => decide (r.parameter = "smoke")).map (·.unit))) = [some "ppb"] ∧
    (get_parameter_info "smoke"
        (some ⟨[⟨0, "Delhi", "smoke", 1, 0, 0, some "ppb"⟩], true⟩)).unit = some "ppb" :=
  ⟨rfl, rfl,
    (get_parameter_info_fallback "smoke" [⟨0, "Delhi", "smoke", 1, 0, 0, some "ppb"⟩]
      rfl).2.2.2.1 (some "ppb") [] rfl⟩

/-- Mean of a list of values, `Series.mean`. -/
def qMean (l : List ℚ) : ℚ := l.sum / l.length

/-- Minimum of a list of values, `Series.min`; 0 on the empty list (pandas
would give NaN, but the aggregator never evaluates it on an empty group). -/
def qMinL : List ℚ → ℚ
  | [] => 0
  | x :: xs => xs.foldl min x

/-- Maximum of a list of values, `Series.max`; 0 on the empty list. -/
def qMaxL : List ℚ → ℚ
  | [] => 0
  | x :: xs => xs.foldl max x

/-- `aggregate_data_for_comparison`: restrict to the parameter, group by
location (pandas emits one group per distinct key, sorted ascending), and
compute mean/min/max of `value` per group. -/
def aggregate_data_for_comparison (df : List Row) (parameter : String) :
    List (String × ℚ × ℚ × ℚ) :=
  let paramDf := df.filter fun r => decide (r.parameter = parameter)
  (List.insertionSort (fun a b : String => a ≤ b)
      (uniq (paramDf.map (·.location)))).map fun loc =>
    let vals := (paramDf.filter fun r => decide (r.location = loc)).map (·.value)
    (loc, qMean vals, qMinL vals, qMaxL vals)

/-- C7: every emitted group is backed by at least one row of the requested
parameter at that location (no group over zero rows), every location that
contributes a row of the parameter gets a group, and on a single-location
pm25 table with values [10, 20, 30] the output is the single group
("Delhi", mean 20, min 10, max 30). -/
theorem aggregate_comparison_groups (df : List Row) (p : String) :
    (∀ g ∈ aggregate_data_for_comparison df p,
      ∃ r ∈ df, r.parameter = p ∧ r.location = g.1) ∧
    (∀ loc : String, (∃ r ∈ df, r.parameter = p ∧ r.location = loc) →
      loc ∈ (aggregate_data_for_comparison df p).map Prod.fst) ∧
    (aggregate_data_for_comparison
      [⟨0, "Delhi", "pm25", 10, 0, 0, none⟩, ⟨86400, "Delhi", "pm25", 20, 0, 0, none⟩,
       ⟨172800, "Delhi", "pm25", 30, 0, 0, none⟩] "pm25" = [("Delhi", 20, 10, 30)]) := by
  refine ⟨fun g hg => ?_, fun loc hloc => ?_, ?_⟩
  · unfold aggregate_data_for_comparison at hg
    rw [List.mem_map] at hg
    obtain ⟨loc, hloc, rfl⟩ := hg
    rw [List.mem_insertionSort, mem_uniq, List.mem_map] at hloc
    obtain ⟨r, hr, rfl⟩ := hloc
    rw [List.mem_filter, decide_eq_true_eq] at hr
    exact ⟨r, hr.1, hr.2, rfl⟩
  · obtain ⟨r, hr, hp, hl⟩ := hloc
    unfold aggregate_data_for_comparison
    rw [List.map_map]
    have : (Prod.fst ∘ fun loc =>
        (loc, qMean (((df.filter fun r => decide (r.parameter = p)).filter
            fun r => decide (r.location = loc)).map (·.value)),
          qMinL (((df.filter fun r => decide (r.parameter = p)).filter
            fun r => decide (r.location = loc)).map (·.value)),
          qMaxL (((df.filter fun r => decide (r.parameter = p)).filter
            fun r => decide (r.location = loc)).map (·.value)))) = id := by
      funext loc
      rfl
    rw [this, List.map_id, List.mem_insertionSort, mem_uniq, List.mem_map]
    exact ⟨r, by rw [List.mem_filter, decide_eq_true_eq]; exact ⟨hr, hp⟩, hl⟩
  · have h1 : qMean [(10 : ℚ), 20, 30] = 20 := by
      norm_num [qMean]
    have h2 : qMinL [(10 : ℚ), 20, 30] = 10 := by
      norm_num [qMinL, min_def]
    have h3 : qMaxL [(10 : ℚ), 20, 30] = 30 := by
      norm_num [qMaxL, max_def]
    have hc : aggregate_data_for_comparison
        [⟨0, "Delhi", "pm25", 10, 0, 0, none⟩, ⟨86400, "Delhi", "pm25", 20, 0, 0, none⟩,
         ⟨172800, "Delhi", "pm25", 30, 0, 0, none⟩] "pm25" =
        [("Delhi", qMean [(10 : ℚ), 20, 30], qMinL [(10 : ℚ), 20, 30],
          qMaxL [(10 : ℚ), 20, 30])] := rfl
    rw [hc, h1, h2, h3]

/-- Witness for C7: on the three-row Delhi table the contributing-row
hypothesis holds concretely, and the theorem places "Delhi" among the emitted
group keys. -/
theorem aggregate_comparison_groups_witness :
    (∃ r ∈ ([⟨0, "Delhi", "pm25", 10, 0, 0, none⟩, ⟨86400, "Delhi", "pm25", 20, 0, 0, none⟩,
        ⟨172800, "Delhi", "pm25", 30, 0, 0, none⟩] : List Row),
      r.parameter = "pm25" ∧ r.location = "Delhi") ∧
    "Delhi" ∈ (aggregate_data_for_comparison
      [⟨0, "Delhi", "pm25", 10, 0, 0, none⟩, ⟨86400, "Delhi", "pm25", 20, 0, 0, none⟩,
       ⟨172800, "Delhi", "pm25", 30, 0, 0, none⟩] "pm25").map Prod.fst :=
  ⟨⟨⟨0, "Delhi", "pm25", 10, 0, 0, none⟩, by simp, rfl, rfl⟩,
    (aggregate_comparison_groups
      [⟨0, "Delhi", "pm25", 10, 0, 0, none⟩, ⟨86400, "Delhi", "pm25", 20, 0, 0, none⟩,
       ⟨172800, "Delhi", "pm25", 30, 0, 0, none⟩] "pm25").2.1 "Delhi"
      ⟨⟨0, "Delhi", "pm25", 10, 0, 0, none⟩, by simp, rfl, rfl⟩⟩

/-- `prepare_correlation_data`: project each parameter's rows to
(date, location, value) and inner-join on (date, location); as in
`pd.merge(..., how='inner')`, every matching pair of rows produces an output
row (a cross product per duplicated key). -/
def prepare_correlation_data (df : List Row) (param1 param2 : String) :
    List (Nat × String × ℚ × ℚ) :=
  let df1 := df.filter fun r => decide (r.parameter = param1)
  let df2 := df.filter fun r => decide (r.parameter = param2)
  df1.flatMap fun r1 =>
    (df2.filter fun r2 => decide (r2.date = r1.date ∧ r2.location = r1.location)).map
      fun r2 => (r1.date, r1.location, r1.value, r2.value)

/-- When the (date, location) keys of `l2` are pairwise distinct and the key
(d, loc) occurs among them, exactly one row of `l2` matches it. -/
theorem match_filter_length_one (l2 : List Row) (d : Nat) (loc : String)
    (hnd : (l2.map fun r => (r.date, r.location)).Nodup)
    (hmem : (d, loc) ∈ l2.map fun r => (r.date, r.location)) :
    (l2.filter fun r2 => decide (r2.date = d ∧ r2.location = loc)).length = 1 := by
  induction l2 with
  | nil => simp at hmem
  | cons a l ih =>
    rw [List.map_cons, List.nodup_cons] at hnd
    rw [List.map_cons, List.mem_cons] at hmem
    rcases hmem with heq | hmem
    · have h1 : d = a.date := congrArg Prod.fst heq
      have h2 : loc = a.location := congrArg Prod.snd heq
      have ha : (decide (a.date = d ∧ a.location = loc)) = true := by
        rw [decide_eq_true_eq]
        exact ⟨h1.symm, h2.symm⟩
      rw [List.filter_cons, if_pos ha, List.length_cons]
      have hrest : (l.filter fun r2 => decide (r2.date = d ∧ r2.location = loc)) = [] := by
        rw [List.filter_eq_nil_iff]
        intro r2 hr2 hmatch
        rw [decide_eq_true_eq] at hmatch
        apply hnd.1
        have hkey : (a.date, a.location) = (r2.date, r2.location) := by
          rw [← h1, ← h2, hmatch.1, hmatch.2]
        rw [hkey]
        exact List.mem_map_of_mem _ hr2
      rw [hrest]
      rfl
    · have ha : (decide (a.date = d ∧ a.location = loc)) = false := by
        rw [decide_eq_false_iff_not]
        intro hmatch
        apply hnd.1
        rw [hmatch.1, hmatch.2]
        exact hmem
      rw [List.filter_cons, if_neg (by rw [ha]; exact Bool.false_ne_true)]
      exact ih hnd.2 hmem

/-- When the key (d, loc) does not occur among the keys of `l2`, no row
matches it. -/
theorem match_filter_eq_nil (l2 : List Row) (d : Nat) (loc : String)
    (hmem : (d, loc) ∉ l2.map fun r => (r.date, r.location)) :
    (l2.filter fun r2 => decide (r2.date = d ∧ r2.location = loc)) = [] := by
  rw [List.filter_eq_nil_iff]
  intro r2 hr2 hmatch
  rw [decide_eq_true_eq] at hmatch
  apply hmem
  rw [← hmatch.1, ← hmatch.2]
  exact List.mem_map_of_mem _ hr2

/-- With the right table's keys pairwise distinct, the join emits exactly one
row per left row whose key occurs on the right. -/
theorem corr_flatMap_length (l1 l2 : List Row)
    (hnd : (l2.map fun r => (r.date, r.location)).Nodup) :
    (l1.flatMap fun r1 =>
      (l2.filter fun r2 => decide (r2.date = r1.date ∧ r2.location = r1.location)).map
        fun r2 => (r1.date, r1.location, r1.value, r2.value)).length =
    (l1.filter fun r1 =>
      decide ((r1.date, r1.location) ∈ l2.map fun r => (r.date, r.location))).length := by
  induction l1 with
  | nil => simp
  | cons a l ih =>
    rw [List.flatMap_cons, List.length_append, List.length_map, ih, List.filter_cons]
    by_cases hmem : (a.date, a.location) ∈ l2.map fun r => (r.date, r.location)
    · rw [match_filter_length_one l2 a.date a.location hnd hmem,
        if_pos (by rw [decide_eq_true_eq]; exact hmem), List.length_cons]
      omega
    · rw [match_filter_eq_nil l2 a.date a.location hmem,
        if_neg (by rw [decide_eq_false_iff_not.mpr hmem]; exact Bool.false_ne_true)]
      simp

/-- A flatMap over a list all of whose images are empty is empty. -/
theorem flatMap_eq_nil_of_forall {α β : Type} (l : List α) (f : α → List β)
    (h : ∀ x ∈ l, f x = []) : l.flatMap f = [] := by
  induction l with
  | nil => rfl
  | cons a l ih =>
    rw [List.flatMap_cons, h a (List.mem_cons_self a l), List.nil_append]
    exact ih fun x hx => h x (List.mem_cons_of_mem a hx)

/-- Counterexample to C1: with duplicated (date, location) keys inside each
parameter subset the inner join is a per-key cross product, so two pm25 rows
and two pm10 rows sharing one key produce 4 joined rows, exceeding
min(countA, countB) = 2. -/
theorem correlate_duplicate_keys_exceed_min :
    (([⟨0, "Delhi", "pm25", 1, 0, 0, none⟩, ⟨0, "Delhi", "pm25", 2, 0, 0, none⟩,
       ⟨0, "Delhi", "pm10", 3, 0, 0, none⟩, ⟨0, "Delhi", "pm10", 4, 0, 0, none⟩] :
        List Row).filter fun r => decide (r.parameter = "pm25")).length = 2 ∧
    (([⟨0, "Delhi", "pm25", 1, 0, 0, none⟩, ⟨0, "Delhi", "pm25", 2, 0, 0, none⟩,
       ⟨0, "Delhi", "pm10", 3, 0, 0, none⟩, ⟨0, "Delhi", "pm10", 4, 0, 0, none⟩] :
        List Row).filter fun r => decide (r.parameter = "pm10")).length = 2 ∧
    (prepare_correlation_data
      [⟨0, "Delhi", "pm25", 1, 0, 0, none⟩, ⟨0, "Delhi", "pm25", 2, 0, 0, none⟩,
       ⟨0, "Delhi", "pm10", 3, 0, 0, none⟩, ⟨0, "Delhi", "pm10", 4, 0, 0, none⟩]
      "pm25" "pm10").length = 4 ∧
    min 2 2 < 4 := by
  exact ⟨rfl, rfl, rfl, by decide⟩

/-- C1 amended: the join is an inner join on (date, location): disjoint keys
yield the empty result; when the keys are unique within each parameter subset
the result has at most min(countA, countB) rows, and exactly that many when
additionally every key of each subset occurs in the other. Without the
uniqueness assumption duplicated keys cross-multiply and the min bound fails. -/
theorem correlate_inner_join (df : List Row) (p1 p2 : String) :
    ((∀ r1 ∈ df, ∀ r2 ∈ df, r1.parameter = p1 → r2.parameter = p2 →
        ¬(r2.date = r1.date ∧ r2.location = r1.location)) →
      prepare_correlation_data df p1 p2 = []) ∧
    ((((df.filter fun r => decide (r.parameter = p1)).map fun r =>
          (r.date, r.location)).Nodup →
      ((df.filter fun r => decide (r.parameter = p2)).map fun r =>
          (r.date, r.location)).Nodup →
      (prepare_correlation_data df p1 p2).length ≤
        min ((df.filter fun r => decide (r.parameter = p1)).length)
          ((df.filter fun r => decide (r.parameter = p2)).length)) ∧
    (((df.filter fun r => decide (r.parameter = p1)).map fun r =>
          (r.date, r.location)).Nodup →
      ((df.filter fun r => decide (r.parameter = p2)).map fun r =>
          (r.date, r.location)).Nodup →
      (∀ r1 ∈ df.filter fun r => decide (r.parameter = p1),
        (r1.date, r1.location) ∈
          (df.filter fun r => decide (r.parameter = p2)).map fun r =>
            (r.date, r.location)) →
      (∀ r2 ∈ df.filter fun r => decide (r.parameter = p2),
        (r2.date, r2.location) ∈
          (df.filter fun r => decide (r.parameter = p1)).map fun r =>
            (r.date, r.location)) →
      (prepare_correlation_data df p1 p2).length =
        min ((df.filter fun r => decide (r.parameter = p1)).length)
          ((df.filter fun r => decide (r.parameter = p2)).length))) := by
  have hdef : prepare_correlation_data df p1 p2 =
      (df.filter fun r => decide (r.parameter = p1)).flatMap fun r1 =>
        (((df.filter fun r => decide (r.parameter = p2)).filter fun r2 =>
            decide (r2.date = r1.date ∧ r2.location = r1.location)).map
          fun r2 => (r1.date, r1.location, r1.value, r2.value)) := rfl
  refine ⟨fun hdisj => ?_, fun hnd1 hnd2 => ?_, fun hnd1 hnd2 hov1 hov2 => ?_⟩
  · rw [hdef]
    apply flatMap_eq_nil_of_forall
    intro r1 hr1
    rw [List.mem_filter, decide_eq_true_eq] at hr1
    have hfil : ((df.filter fun r => decide (r.parameter = p2)).filter fun r2 =>
        decide (r2.date = r1.date ∧ r2.location = r1.location)) = [] := by
      rw [List.filter_eq_nil_iff]
      intro r2 hr2 hmatch
      rw [List.mem_filter, decide_eq_true_eq] at hr2
      rw [decide_eq_true_eq] at hmatch
      exact hdisj r1 hr1.1 r2 hr2.1 hr1.2 hr2.2 hmatch
    rw [hfil, List.map_nil]
  · rw [hdef, corr_flatMap_length _ _ hnd2]
    apply le_min
    · exact List.length_filter_le _ _
    · have hsubl : List.Sublist
          (((df.filter fun r => decide (r.parameter = p1)).filter fun r1 =>
            decide ((r1.date, r1.location) ∈
              (df.filter fun r => decide (r.parameter = p2)).map fun r =>
                (r.date, r.location))).map fun r => (r.date, r.location))
          ((df.filter fun r => decide (r.parameter = p1)).map fun r =>
            (r.date, r.location)) :=
        (List.filter_sublist _).map _
      have hnodup := hnd1.sublist hsubl
      have hsubset : (((df.filter fun r => decide (r.parameter = p1)).filter fun r1 =>
          decide ((r1.date, r1.location) ∈
            (df.filter fun r => decide (r.parameter = p2)).map fun r =>
              (r.date, r.location))).map fun r => (r.date, r.location)) ⊆
          ((df.filter fun r => decide (r.parameter = p2)).map fun r =>
            (r.date, r.location)) := by
        intro k hk
        rw [List.mem_map] at hk
        obtain ⟨r1, hr1, rfl⟩ := hk
        rw [List.mem_filter, decide_eq_true_eq] at hr1
        exact hr1.2
      have hle := (List.subperm_of_subset hnodup hsubset).length_le
      rw [List.length_map, List.length_map] at hle
      exact hle
  · rw [hdef, corr_flatMap_length _ _ hnd2]
    have hall : ((df.filter fun r => decide (r.parameter = p1)).filter fun r1 =>
        decide ((r1.date, r1.location) ∈
          (df.filter fun r => decide (r.parameter = p2)).map fun r =>
            (r.date, r.location))) =
        (df.filter fun r => decide (r.parameter = p1)) := by
      rw [List.filter_eq_self]
      intro r1 hr1
      exact decide_eq_true (hov1 r1 hr1)
    rw [hall]
    have hsub12 : ((df.filter fun r => decide (r.parameter = p1)).map fun r =>
        (r.date, r.location)) ⊆
        ((df.filter fun r => decide (r.parameter = p2)).map fun r =>
          (r.date, r.location)) := by
      intro k hk
      rw [List.mem_map] at hk
      obtain ⟨r1, hr1, rfl⟩ := hk
      exact hov1 r1 hr1
    have hsub21 : ((df.filter fun r => decide (r.parameter = p2)).map fun r =>
        (r.date, r.location)) ⊆
        ((df.filter fun r => decide (r.parameter = p1)).map fun r =>
          (r.date, r.location)) := by
      intro k hk
      rw [List.mem_map] at hk
      obtain ⟨r2, hr2, rfl⟩ := hk
      exact hov2 r2 hr2
    have hperm := (List.subperm_of_subset hnd1 hsub12).antisymm
      (List.subperm_of_subset hnd2 hsub21)
    have hlen := hperm.length_eq
    rw [List.length_map, List.length_map] at hlen
    rw [hlen, Nat.min_self]

/-- Witness for C1 (amended): a two-row table, one pm25 row and one pm10 row
at the same (date, location); keys are unique in each subset and overlap
fully, and the join has exactly min(1, 1) = 1 row. -/
theorem correlate_inner_join_witness :
    ((([⟨0, "Delhi", "pm25", 1, 0, 0, none⟩, ⟨0, "Delhi", "pm10", 2, 0, 0, none⟩] :
        List Row).filter fun r => decide (r.parameter = "pm25")).map fun r =>
        (r.date, r.location)).Nodup ∧
    ((([⟨0, "Delhi", "pm25", 1, 0, 0, none⟩, ⟨0, "Delhi", "pm10", 2, 0, 0, none⟩] :
        List Row).filter fun r => decide (r.parameter = "pm10")).map fun r =>
        (r.date, r.location)).Nodup ∧
    (prepare_correlation_data
      [⟨0, "Delhi", "pm25", 1, 0, 0, none⟩, ⟨0, "Delhi", "pm10", 2, 0, 0, none⟩]
      "pm25" "pm10").length =
      min ((([⟨0, "Delhi", "pm25", 1, 0, 0, none⟩, ⟨0, "Delhi", "pm10", 2, 0, 0, none⟩] :
          List Row).filter fun r => decide (r.parameter = "pm25")).length)
        ((([⟨0, "Delhi", "pm25", 1, 0, 0, none⟩, ⟨0, "Delhi", "pm10", 2, 0, 0, none⟩] :
          List Row).filter fun r => decide (r.parameter = "pm10")).length) :=
  ⟨by decide, by decide,
    (correlate_inner_join
      [⟨0, "Delhi", "pm25", 1, 0, 0, none⟩, ⟨0, "Delhi", "pm10", 2, 0, 0, none⟩]
      "pm25" "pm10").2.2 (by decide) (by decide)
      (by decide) (by decide)⟩
